import Mathlib

/-!
Verification development for the GameLift Streams React starter sample.

The file embeds the session-lifecycle and telemetry logic of the repository:
the reconnect Lambda's ARN handling, the `StreamComponent` session
controller (create, poll-until-active, reconnect, close), and the
`StatsOverlay` statistics processor.  Definitions mirror the JavaScript /
TypeScript source; theorems settle the specified properties.
-/

namespace GLS

/-! ## Reconnect Lambda: stream-group identifier derivation

The reconnect handler does
`const parts = body.SessionIdentifier.split("/")` and
`const sg_arn = parts[parts.length - 2]`.
We embed JavaScript's `split("/")` on character lists: `splitSlash` cuts a
character list at every slash (never returning an empty list of segments),
and indexing `parts[parts.length - 2]` is exactly the second-to-last
element, `undefined` (here `none`) when there are fewer than two segments. -/

/-- Embedding of the JavaScript expression `s.split("/")` on `List Char`. -/
def splitSlash : List Char → List (List Char)
  | [] => [[]]
  | c :: cs =>
    if c = '/' then [] :: splitSlash cs
    else
      match splitSlash cs with
      | [] => [[c]]
      | s :: ss => (c :: s) :: ss

/-- Embedding of `parts[parts.length - 2]`: the second-to-last element when
it exists, otherwise `none` (JavaScript `undefined`). -/
def secondToLast (l : List α) : Option α :=
  l.reverse.get? 1

/-- The `Identifier` the reconnect handler sends to the control plane,
derived from the request's `SessionIdentifier`
(`parts[parts.length - 2]` of `SessionIdentifier.split("/")`). -/
def reconnectHandlerIdentifier (sessionIdentifier : String) : Option String :=
  (secondToLast (splitSlash sessionIdentifier.toList)).map List.asString

theorem splitSlash_ne_nil (l : List Char) : splitSlash l ≠ [] := by
  cases l with
  | nil => simp [splitSlash]
  | cons c cs =>
    simp only [splitSlash]
    split
    · simp
    · cases h : splitSlash cs <;> simp

theorem splitSlash_append (xs ys : List Char) :
    splitSlash (xs ++ '/' :: ys) = splitSlash xs ++ splitSlash ys := by
  induction xs with
  | nil => simp [splitSlash]
  | cons c cs ih =>
    by_cases hc : c = '/'
    · simp [splitSlash, hc, ih]
    · simp only [List.cons_append, splitSlash, hc, if_false, List.append_eq]
      rw [ih]
      cases h : splitSlash cs with
      | nil => exact absurd h (splitSlash_ne_nil cs)
      | cons s ss => simp

theorem splitSlash_no_slash (xs : List Char) (h : '/' ∉ xs) :
    splitSlash xs = [xs] := by
  induction xs with
  | nil => simp [splitSlash]
  | cons c cs ih =>
    simp only [List.mem_cons, not_or] at h
    have hc : ¬ c = '/' := fun hcc => h.1 hcc.symm
    simp [splitSlash, hc, ih h.2]

/-! ## StreamComponent: session lifecycle controller

The `StreamComponent` React class is embedded as a record of its state
fields plus an explicit `handleGen` counter naming the current
`GameLiftStreams` SDK handle (`this.gameliftstreams`); the constructor and
every `resetGameLiftStreamsSDK` call produce a fresh generation.  Methods
become functions from state to state, paired with a timestamped trace of
their observable effects (gateway requests, transport-engine calls, user
alerts, timed waits).  Asynchronous awaits are collapsed to sequential
execution of a single invocation; gateway outcomes and per-poll network
latencies are inputs.  Transport-engine calls are modelled as
non-throwing. -/

/-- The `StreamState` enum of `StreamComponent.tsx`. -/
inductive StreamState where
  | STOPPED
  | LOADING
  | RUNNING
  | ERROR
deriving DecidableEq

/-- The `StreamComponentState` fields, plus the generation number of the
live `GameLiftStreams` handle. -/
structure ComponentState where
  status : StreamState
  sgId : String
  appId : String
  sessionId : String
  lastSessionId : String
  regions : List String
  inputEnabled : Bool
  isStreamStarting : Bool
  handleGen : Nat
deriving DecidableEq

/-- The component's state after the constructor and `componentDidMount`
(which installs handle generation 0 via `resetGameLiftStreamsSDK`). -/
def initState : ComponentState :=
  { status := .STOPPED, sgId := "", appId := "", sessionId := "",
    lastSessionId := "", regions := ["us-west-2"],
    inputEnabled := false, isStreamStarting := false, handleGen := 0 }

/-- Observable effects of the component, each tagged in traces with the
millisecond time at which it occurs. -/
inductive Ev where
  | genSignal (handle : Nat)
  | postStart
  | postReconnect
  | getSession (sg : String) (arn : String)
  | processSignal (handle : Nat) (signalResponse : String)
  | attachInput (handle : Nat)
  | closeHandle (handle : Nat)
  | newHandle (handle : Nat)
  | alert (msg : String)
  | sleep (ms : Nat)
deriving DecidableEq

/-- An exception reaching a catch block: an Amplify `ApiError` (whose
`response`, when present, carries the HTTP status code and the parsed
`message` of the body) or any other error with a `message`. -/
inductive JsError where
  | apiError (response : Option (Nat × String))
  | otherError (msg : String)
deriving DecidableEq

/-- JavaScript `x || 'Unknown error'` on the parsed message. -/
def msgOrUnknown (m : String) : String :=
  if m = "" then "Unknown error" else m

/-- Embedding of `handleError`: for an `ApiError` with a response, clear
`isStreamStarting` and alert; for an `ApiError` without a response, do
nothing (the nested `if (e.response)` has no else branch); otherwise clear
`isStreamStarting` and alert. -/
def handleError (now : Nat) (e : JsError) (s : ComponentState) :
    ComponentState × List (Nat × Ev) :=
  match e with
  | .apiError (some (statusCode, message)) =>
    ({ s with isStreamStarting := false },
     [(now, .alert ("Error: " ++ toString statusCode ++ " - " ++
        msgOrUnknown message ++ ". Check console for details."))])
  | .apiError none => (s, [])
  | .otherError message =>
    ({ s with isStreamStarting := false },
     [(now, .alert ("Error: " ++ msgOrUnknown message ++
        ". Check console for details."))])

/-- Embedding of `startStream`: apply the signal response to the current
handle, attach input, and transition to `RUNNING` with
`isStreamStarting = false`. -/
def startStream (now : Nat) (signalResponse : String) (s : ComponentState) :
    ComponentState × List (Nat × Ev) :=
  ({ s with status := .RUNNING, isStreamStarting := false },
   [(now, .processSignal s.handleGen signalResponse),
    (now, .attachInput s.handleGen)])

/-- Outcome of one `GetSession` request issued by the poll loop. -/
inductive PollResp where
  | ok (status : String) (signalResponse : String)
  | err (e : JsError)
deriving DecidableEq

/-- The timeout exit of `waitForACTIVE`: `handleTimeout` (an alert) plus
the final `setState({ isStreamStarting: false })`. -/
def timeoutExit (now : Nat) (s : ComponentState) :
    ComponentState × List (Nat × Ev) :=
  ({ s with isStreamStarting := false },
   [(now, .alert "Error: Stream session creation timed out. Check console for details.")])

/-- The `while (Date.now() - startTime < timeoutMs)` loop of
`waitForACTIVE`.  `responses k` is the outcome of the `k`-th `GetSession`
request and `latency k` the milliseconds it takes; `deadline` is
`startTime + timeoutMs`.  Iteration `k` starts at `now`, observes its
response at `now + latency k`, and on a non-`ACTIVE` status sleeps 1000 ms.
`fuel` is a recursion bound: since each iteration advances `now` by at
least 1000, any `fuel ≥ deadline - now` (as supplied by `waitForACTIVE`)
is never exhausted while the loop guard holds, and at `fuel = 0` the guard
is already false, so the `fuel = 0` branch coincides with the source's
timeout exit. -/
def pollLoop (responses : Nat → PollResp) (latency : Nat → Nat)
    (arn sg : String) (deadline : Nat) :
    Nat → Nat → Nat → ComponentState → ComponentState × List (Nat × Ev)
  | 0, _, now, s => timeoutExit now s
  | fuel + 1, k, now, s =>
    if now < deadline then
      let tResp := now + latency k
      match responses k with
      | .err e =>
        let r := handleError tResp e s
        ({ r.1 with isStreamStarting := false },
         (now, .getSession sg arn) :: r.2)
      | .ok status signalResponse =>
        if status = "ACTIVE" then
          let r := startStream tResp signalResponse s
          ({ r.1 with lastSessionId := arn },
           (now, .getSession sg arn) :: r.2)
        else
          let r := pollLoop responses latency arn sg deadline fuel (k + 1)
            (tResp + 1000) s
          (r.1, (now, .getSession sg arn) :: (tResp, .sleep 1000) :: r.2)
    else timeoutExit now s

/-- Embedding of `waitForACTIVE(arn, sg, timeoutMs = 600000)` starting at
wall-clock time `now`. -/
def waitForACTIVE (responses : Nat → PollResp) (latency : Nat → Nat)
    (arn sg : String) (timeoutMs : Nat) (now : Nat) (s : ComponentState) :
    ComponentState × List (Nat × Ev) :=
  pollLoop responses latency arn sg (now + timeoutMs) timeoutMs 0 now s

/-- Outcome of the `POST /` gateway request of `createStreamSession`. -/
inductive StartRes where
  | ok (arn : String)
  | err (e : JsError)

/-- Embedding of `createStreamSession`: set `isStreamStarting`, generate a
signal request, post to the gateway; on success poll with `waitForACTIVE`
(timeout defaulting to 600000 ms, stream group taken from `state.sgId`);
on an exception run `handleError`. -/
def createStreamSession (startRes : StartRes) (responses : Nat → PollResp)
    (latency : Nat → Nat) (now : Nat) (s : ComponentState) :
    ComponentState × List (Nat × Ev) :=
  let s1 := { s with isStreamStarting := true }
  let entry := [(now, Ev.genSignal s.handleGen), (now, Ev.postStart)]
  match startRes with
  | .err e =>
    let r := handleError now e s1
    (r.1, entry ++ r.2)
  | .ok arn =>
    let r := waitForACTIVE responses latency arn s.sgId 600000 now s1
    (r.1, entry ++ r.2)

/-- Outcome of the `POST /reconnect` gateway request of
`createStreamSessionConnection`. -/
inductive ReconRes where
  | ok (signalResponse : String)
  | err (e : JsError)

/-- Embedding of `createStreamSessionConnection`: set `isStreamStarting`,
generate a signal request, post to `/reconnect`; on success apply the
returned signal response directly via `startStream`; on an exception run
`handleError`. -/
def createStreamSessionConnection (res : ReconRes) (now : Nat)
    (s : ComponentState) : ComponentState × List (Nat × Ev) :=
  let s1 := { s with isStreamStarting := true }
  let entry := [(now, Ev.genSignal s.handleGen), (now, Ev.postReconnect)]
  match res with
  | .err e =>
    let r := handleError now e s1
    (r.1, entry ++ r.2)
  | .ok signalResponse =>
    let r := startStream now signalResponse s1
    (r.1, entry ++ r.2)

/-- Embedding of `closeConnection`: transition to `STOPPED`, clear
`inputEnabled`, close the current handle, construct the replacement handle
(`resetGameLiftStreamsSDK`), and clear `isStreamStarting`. -/
def closeConnection (now : Nat) (s : ComponentState) :
    ComponentState × List (Nat × Ev) :=
  ({ s with status := .STOPPED, inputEnabled := false,
            handleGen := s.handleGen + 1, isStreamStarting := false },
   [(now, .closeHandle s.handleGen), (now, .newHandle (s.handleGen + 1))])

/-- Embedding of `enableFullScreen`: attach input on the current handle
and set `inputEnabled` (fullscreen and keyboard-lock probing are browser
effects outside the model). -/
def enableFullScreen (now : Nat) (s : ComponentState) :
    ComponentState × List (Nat × Ev) :=
  ({ s with inputEnabled := true }, [(now, .attachInput s.handleGen)])

/-- The three text inputs rendered by the component, whose `name`
attributes drive `handleInputChange`. -/
inductive FieldName where
  | sgId
  | appId
  | sessionId
deriving DecidableEq

/-- Embedding of `handleInputChange`: `[name]: value.trim()`. -/
def handleInputChange (f : FieldName) (value : String) (s : ComponentState) :
    ComponentState :=
  match f with
  | .sgId => { s with sgId := value.trim }
  | .appId => { s with appId := value.trim }
  | .sessionId => { s with sessionId := value.trim }

/-- Embedding of `handleRegionChange`: `regions: [region]`. -/
def handleRegionChange (region : String) (s : ComponentState) :
    ComponentState :=
  { s with regions := [region] }

/-- A user-visible operation of the component, with the environment data
(gateway outcomes, poll latencies) it consumes. -/
inductive Cmd where
  | create (startRes : StartRes) (responses : Nat → PollResp)
      (latency : Nat → Nat)
  | reconnect (res : ReconRes)
  | close
  | fullscreen
  | input (f : FieldName) (value : String)
  | region (r : String)

/-- Dispatch one command at wall-clock time `now`. -/
def runCmd (now : Nat) (s : ComponentState) :
    Cmd → ComponentState × List (Nat × Ev)
  | .create startRes responses latency =>
    createStreamSession startRes responses latency now s
  | .reconnect res => createStreamSessionConnection res now s
  | .close => closeConnection now s
  | .fullscreen => enableFullScreen now s
  | .input f v => (handleInputChange f v s, [])
  | .region r => (handleRegionChange r s, [])

/-- Run a sequence of commands, each at its environment-chosen start
time, concatenating the traces. -/
def run : List (Nat × Cmd) → ComponentState → ComponentState × List (Nat × Ev)
  | [], s => (s, [])
  | (t, c) :: rest, s =>
    let r1 := runCmd t s c
    let r2 := run rest r1.1
    (r2.1, r1.2 ++ r2.2)

/-- The handle generation an event invokes an SDK operation on, when it
invokes one. -/
def usedHandle : Ev → Option Nat
  | .genSignal g => some g
  | .processSignal g _ => some g
  | .attachInput g => some g
  | _ => none

/-- The handle generation an event closes, when it closes one. -/
def closedHandle : Ev → Option Nat
  | .closeHandle g => some g
  | _ => none

/-- Number of events in a trace satisfying a predicate. -/
def countEv (p : Ev → Bool) (t : List (Nat × Ev)) : Nat :=
  (t.filter fun q => p q.2).length

/-- Recognizer for `GetSession` poll requests. -/
def isGetSession : Ev → Bool
  | .getSession _ _ => true
  | _ => false

/-! ## StatsOverlay: statistics processor

`processStats` of `StatsOverlay.tsx` is embedded over exact rational
numbers in place of JavaScript floats; `Date.now()` timestamps are
rationals in milliseconds.  JavaScript truthiness tests on optional
numeric report fields (`report.jitter ? … : undefined`,
`report.bytesReceived && …`, `report.bytesReceived || 0`) become tests of
`Option.getD · 0 ≠ 0`.  A zero time delta between bitrate samples (which
in JavaScript yields an infinite quotient) is outside the model. -/

/-- JavaScript `Math.round`: round half toward positive infinity. -/
def jsRound (q : ℚ) : ℤ :=
  ⌊q + 1 / 2⌋

/-- JavaScript `Number.prototype.toFixed(2)` for the nonnegative values
the processor produces: two decimal places, ties rounded away from
zero. -/
def toFixed2 (q : ℚ) : String :=
  let n : ℤ := ⌊q * 100 + 1 / 2⌋
  toString (n / 100) ++ "." ++ (if n % 100 < 10 then "0" else "") ++
    toString (n % 100)

/-- One WebRTC stats report entry, with the fields `processStats` reads;
absent fields are `none`. -/
structure RTCReport where
  type : String
  framesPerSecond : Option ℚ
  jitter : Option ℚ
  bytesReceived : Option ℚ
  state : Option String
  currentRoundTripTime : Option ℚ
deriving DecidableEq

/-- The `NetworkStats` record of `StatsOverlay.tsx`; `rtt` and `jitter`
in milliseconds, `bitrate` a formatted mbps string. -/
structure NetworkStats where
  rtt : Option ℤ
  jitter : Option ℤ
  bitrate : Option String
deriving DecidableEq

/-- The processor's state: the displayed network stats and frame rate,
plus the bitrate baseline refs `previousBytesReceivedRef` and
`previousTimestampRef`. -/
structure StatsState where
  networkStats : NetworkStats
  frameRate : Option ℤ
  previousBytesReceived : ℚ
  previousTimestamp : ℚ
deriving DecidableEq

/-- Processor state at mount: empty stats, refs initialized to 0. -/
def initStats : StatsState :=
  { networkStats := { rtt := none, jitter := none, bitrate := none },
    frameRate := none, previousBytesReceived := 0, previousTimestamp := 0 }

/-- Processing of a single report inside the `stats.forEach` loop of
`processStats`: the inbound-rtp branch (frame rate, jitter, bitrate and
baseline updates) followed by the succeeded candidate-pair branch
(round-trip time). -/
def procReport (now : ℚ) (acc : StatsState) (report : RTCReport) :
    StatsState :=
  let acc :=
    if report.type = "inbound-rtp" ∧ report.framesPerSecond.isSome then
      let newFrameRate := some (jsRound (report.framesPerSecond.getD 0))
      let newJitter :=
        if report.jitter.getD 0 ≠ 0 then
          some (jsRound (report.jitter.getD 0 * 1000))
        else none
      let acc1 :=
        { acc with
            frameRate := newFrameRate
            networkStats := { acc.networkStats with jitter := newJitter } }
      let acc2 :=
        if report.bytesReceived.getD 0 ≠ 0 ∧ acc.previousBytesReceived ≠ 0 then
          let timeDiff := (now - acc.previousTimestamp) / 1000
          let bytesDiff := report.bytesReceived.getD 0 - acc.previousBytesReceived
          let bitrate := toFixed2 (bytesDiff * 8 / timeDiff / 1000000)
          { acc1 with
              networkStats := { acc1.networkStats with bitrate := some bitrate }
              previousTimestamp := now }
        else acc1
      { acc2 with previousBytesReceived := report.bytesReceived.getD 0 }
    else acc
  if report.type = "candidate-pair" ∧ report.state = some "succeeded" then
    { acc with networkStats := { acc.networkStats with
        rtt :=
          if report.currentRoundTripTime.getD 0 ≠ 0 then
            some (jsRound (report.currentRoundTripTime.getD 0 * 1000))
          else none } }
  else acc

/-- Embedding of `processStats(stats)` called at time `now`: initialize
the baseline refs when `previousBytesReceivedRef.current` is falsy, then
fold the report list. -/
def processStats (now : ℚ) (stats : List RTCReport) (st : StatsState) :
    StatsState :=
  let st :=
    if st.previousBytesReceived = 0 then { st with previousTimestamp := now }
    else st
  stats.foldl (procReport now) st

/-- Rendering of `{x || '-'}` for the numeric overlay values (RTT,
jitter, client FPS): a falsy value (absent or zero) displays as the
placeholder. -/
def renderStat : Option ℤ → String
  | none => "-"
  | some n => if n = 0 then "-" else toString n

/-- An inbound-rtp report with the given frame rate, jitter and received
byte count. -/
def mediaReport (fps jit bytes : Option ℚ) : RTCReport :=
  { type := "inbound-rtp", framesPerSecond := fps, jitter := jit,
    bytesReceived := bytes, state := none, currentRoundTripTime := none }

/-- A succeeded candidate-pair report with the given round-trip time. -/
def pairReport (rtt : Option ℚ) : RTCReport :=
  { type := "candidate-pair", framesPerSecond := none, jitter := none,
    bytesReceived := none, state := some "succeeded",
    currentRoundTripTime := rtt }

/-! ## Theorems -/

theorem secondToLast_append_pair (A : List (List Char)) (x y : List Char) :
    secondToLast (A ++ [x, y]) = some x := by
  simp [secondToLast]

/-- C1 counterexample: for the ARN named by the claim, the reconnect
handler derives the identifier `streamsession` (its second-to-last
slash-delimited segment), not `sg-abc`. -/
theorem c1_counterexample :
    reconnectHandlerIdentifier
        "arn:aws:svc:us-west-2:111122223333:streamgroup/sg-abc/streamsession/sess-1"
      = some "streamsession" ∧
    reconnectHandlerIdentifier
        "arn:aws:svc:us-west-2:111122223333:streamgroup/sg-abc/streamsession/sess-1"
      ≠ some "sg-abc" := by
  constructor <;> decide

/-- C1 (amended): the identifier `CreateConnection` sends to the control
plane is the second-to-last slash-delimited segment of the session ARN:
for any ARN `p/x/y` whose final two segments `x` and `y` are slash-free,
the derived identifier is `x`; for the claim's ARN
`arn:aws:svc:us-west-2:111122223333:streamgroup/sg-abc/streamsession/sess-1`
the derived identifier is therefore `streamsession`. -/
theorem c1_reconnect_identifier :
    (∀ p x y : String, '/' ∉ x.toList → '/' ∉ y.toList →
      reconnectHandlerIdentifier (p ++ "/" ++ x ++ "/" ++ y) = some x) ∧
    reconnectHandlerIdentifier
        "arn:aws:svc:us-west-2:111122223333:streamgroup/sg-abc/streamsession/sess-1"
      = some "streamsession" := by
  constructor
  · intro p x y hx hy
    have hl : (p ++ "/" ++ x ++ "/" ++ y).toList
        = p.toList ++ '/' :: (x.toList ++ '/' :: y.toList) := by
      simp [String.toList]
    rw [reconnectHandlerIdentifier, hl, splitSlash_append, splitSlash_append,
      splitSlash_no_slash x.toList hx, splitSlash_no_slash y.toList hy]
    rw [show splitSlash p.toList ++ ([x.toList] ++ [y.toList])
        = splitSlash p.toList ++ [x.toList, y.toList] from rfl]
    rw [secondToLast_append_pair]
    exact congrArg some (String.asString_toList x)
  · decide

/-- The `createStreamSession` invocation of the C2 scenario: the gateway
start request fails with HTTP 500 and body message `throttled`. -/
def c2Run : ComponentState × List (Nat × Ev) :=
  createStreamSession (.err (.apiError (some (500, "throttled"))))
    (fun _ => .ok "ACTIVATING" "") (fun _ => 0) 0 initState

/-- C2 evaluated at the failing input: after a gateway failure during
`createStreamSession` the status is still `STOPPED` — the code never
assigns `StreamState.ERROR` — while `isStreamStarting` is cleared and no
`GetSession` poll request is ever issued. -/
theorem c2_code_eval :
    c2Run.1.status = .STOPPED ∧
    c2Run.1.status ≠ .ERROR ∧
    c2Run.1.isStreamStarting = false ∧
    countEv isGetSession c2Run.2 = 0 := by
  decide

/-- The `waitForACTIVE` invocation of the C3 scenario: every `GetSession`
response reports `ACTIVATING`, `timeoutMs = 3000`, zero network
latency. -/
def c3Run : ComponentState × List (Nat × Ev) :=
  waitForACTIVE (fun _ => .ok "ACTIVATING" "sig") (fun _ => 0)
    "arn-1" "sg-1" 3000 0 initState

/-- C3 evaluated at the failing input: when no poll observes `ACTIVE`
before the 3000 ms deadline, the loop stops polling — three `GetSession`
requests, all before the deadline, and the final event is the timeout
alert at the deadline — and clears `isStreamStarting`, but the status is
still `STOPPED`: the code never assigns `StreamState.ERROR`. -/
theorem c3_code_eval :
    c3Run.1.status = .STOPPED ∧
    c3Run.1.status ≠ .ERROR ∧
    c3Run.1.isStreamStarting = false ∧
    countEv isGetSession c3Run.2 = 3 ∧
    (c3Run.2.filter fun p => isGetSession p.2).map Prod.fst = [0, 1000, 2000] ∧
    c3Run.2.getLast? = some (3000,
      .alert "Error: Stream session creation timed out. Check console for details.") := by
  decide

theorem pollLoop_succ (responses : Nat → PollResp) (latency : Nat → Nat)
    (arn sg : String) (deadline fuel k now : Nat) (s : ComponentState) :
    pollLoop responses latency arn sg deadline (fuel + 1) k now s =
      if now < deadline then
        match responses k with
        | .err e =>
          let r := handleError (now + latency k) e s
          ({ r.1 with isStreamStarting := false },
           (now, .getSession sg arn) :: r.2)
        | .ok status signalResponse =>
          if status = "ACTIVE" then
            let r := startStream (now + latency k) signalResponse s
            ({ r.1 with lastSessionId := arn },
             (now, .getSession sg arn) :: r.2)
          else
            let r := pollLoop responses latency arn sg deadline fuel (k + 1)
              (now + latency k + 1000) s
            (r.1, (now, .getSession sg arn) :: (now + latency k, .sleep 1000) :: r.2)
      else timeoutExit now s := rfl

/-- C4: when `GetSession` answers `ACTIVATING` twice and then `ACTIVE`,
`waitForACTIVE` (default 600000 ms timeout, 1000 ms interval, per-request
network latencies below the deadline) issues exactly three `GetSession`
requests, the third no earlier than 2000 ms after the start; it applies
the third response's `signalResponse` to the transport engine, attaches
input, transitions to `RUNNING`, and polls no further — the trace is
exactly the three requests, the two 1000 ms sleeps between them, and the
answer application. -/
theorem c4_poll_three_then_active
    (responses : Nat → PollResp) (latency : Nat → Nat)
    (arn sg a b c : String) (s : ComponentState)
    (h0 : responses 0 = .ok "ACTIVATING" a)
    (h1 : responses 1 = .ok "ACTIVATING" b)
    (h2 : responses 2 = .ok "ACTIVE" c)
    (hl0 : latency 0 ≤ 100000) (hl1 : latency 1 ≤ 100000) :
    waitForACTIVE responses latency arn sg 600000 0 s =
      ({ s with status := .RUNNING, isStreamStarting := false,
                lastSessionId := arn },
       [(0, .getSession sg arn), (0 + latency 0, .sleep 1000),
        (0 + latency 0 + 1000, .getSession sg arn),
        (0 + latency 0 + 1000 + latency 1, .sleep 1000),
        (0 + latency 0 + 1000 + latency 1 + 1000, .getSession sg arn),
        (0 + latency 0 + 1000 + latency 1 + 1000 + latency 2,
          .processSignal s.handleGen c),
        (0 + latency 0 + 1000 + latency 1 + 1000 + latency 2,
          .attachInput s.handleGen)]) ∧
    countEv isGetSession (waitForACTIVE responses latency arn sg 600000 0 s).2
      = 3 ∧
    2000 ≤ 0 + latency 0 + 1000 + latency 1 + 1000 := by
  have E : waitForACTIVE responses latency arn sg 600000 0 s =
      ({ s with status := .RUNNING, isStreamStarting := false,
                lastSessionId := arn },
       [(0, .getSession sg arn), (0 + latency 0, .sleep 1000),
        (0 + latency 0 + 1000, .getSession sg arn),
        (0 + latency 0 + 1000 + latency 1, .sleep 1000),
        (0 + latency 0 + 1000 + latency 1 + 1000, .getSession sg arn),
        (0 + latency 0 + 1000 + latency 1 + 1000 + latency 2,
          .processSignal s.handleGen c),
        (0 + latency 0 + 1000 + latency 1 + 1000 + latency 2,
          .attachInput s.handleGen)]) := by
    rw [waitForACTIVE]
    rw [show (600000 : Nat) = 599999 + 1 from rfl]
    rw [pollLoop_succ]
    rw [if_pos (show (0 : Nat) < 0 + (599999 + 1) by norm_num)]
    simp only [h0]
    rw [if_neg (show ¬ ("ACTIVATING" = "ACTIVE") by decide)]
    rw [show (599999 : Nat) = 599998 + 1 from rfl]
    rw [pollLoop_succ]
    rw [if_pos (show 0 + latency 0 + 1000 < 0 + (599998 + 1 + 1) by omega)]
    simp only [h1]
    rw [if_neg (show ¬ ("ACTIVATING" = "ACTIVE") by decide)]
    rw [show (599998 : Nat) = 599997 + 1 from rfl]
    rw [pollLoop_succ]
    rw [if_pos (show 0 + latency 0 + 1000 + latency 1 + 1000
      < 0 + (599997 + 1 + 1 + 1) by omega)]
    simp only [h2]
    simp only [if_true, startStream]
  refine ⟨E, ?_, by omega⟩
  rw [E]
  simp [countEv, isGetSession]

/-- C4 witness: the three-call scenario run with a concrete response
stub and zero network latency. -/
theorem c4_witness :
    countEv isGetSession
      (waitForACTIVE (fun k => if k < 2 then .ok "ACTIVATING" "" else .ok "ACTIVE" "sig")
        (fun _ => 0) "arn-1" "sg-1" 600000 0 initState).2 = 3 ∧
    (waitForACTIVE (fun k => if k < 2 then .ok "ACTIVATING" "" else .ok "ACTIVE" "sig")
        (fun _ => 0) "arn-1" "sg-1" 600000 0 initState).1.status = .RUNNING := by
  have h := c4_poll_three_then_active
    (fun k => if k < 2 then .ok "ACTIVATING" "" else .ok "ACTIVE" "sig")
    (fun _ => 0) "arn-1" "sg-1" "" "" "sig" initState
    (by decide) (by decide) (by decide) (by decide) (by decide)
  refine ⟨h.2.1, ?_⟩
  rw [h.1]

theorem handleError_lastSessionId (now : Nat) (e : JsError)
    (s : ComponentState) :
    (handleError now e s).1.lastSessionId = s.lastSessionId := by
  cases e with
  | apiError r =>
    cases r with
    | none => rfl
    | some p => cases p; rfl
  | otherError m => rfl

theorem handleError_status (now : Nat) (e : JsError) (s : ComponentState) :
    (handleError now e s).1.status = s.status := by
  cases e with
  | apiError r =>
    cases r with
    | none => rfl
    | some p => cases p; rfl
  | otherError m => rfl

theorem pollLoop_lastSessionId (responses : Nat → PollResp)
    (latency : Nat → Nat) (arn sg : String) (deadline : Nat)
    (fuel k now : Nat) (s : ComponentState) :
    (pollLoop responses latency arn sg deadline fuel k now s).1.lastSessionId
        = s.lastSessionId ∨
      ((pollLoop responses latency arn sg deadline fuel k now s).1.status
          = .RUNNING ∧
       (pollLoop responses latency arn sg deadline fuel k now s).1.lastSessionId
          = arn) := by
  induction fuel generalizing k now with
  | zero => left; rfl
  | succ fuel ih =>
    rw [pollLoop_succ]
    split
    · split
      · left; exact handleError_lastSessionId _ _ _
      · split
        · right; exact ⟨rfl, rfl⟩
        · exact ih (k + 1) _
    · left; rfl

/-- C5: `lastSessionId` is assigned only on the successful transition
into `RUNNING` inside the poll loop of the create path: reconnect,
close, fullscreen and the input handlers all preserve it, and after
`createStreamSession` it is either unchanged or the component is
`RUNNING` and it equals the ARN returned by the gateway start call. -/
theorem c5_lastSessionId_only_via_poll :
    (∀ res now s,
      (createStreamSessionConnection res now s).1.lastSessionId
        = s.lastSessionId) ∧
    (∀ now s, (closeConnection now s).1.lastSessionId = s.lastSessionId) ∧
    (∀ now s, (enableFullScreen now s).1.lastSessionId = s.lastSessionId) ∧
    (∀ f v s, (handleInputChange f v s).lastSessionId = s.lastSessionId) ∧
    (∀ r s, (handleRegionChange r s).lastSessionId = s.lastSessionId) ∧
    (∀ startRes responses latency now s,
      (createStreamSession startRes responses latency now s).1.lastSessionId
          = s.lastSessionId ∨
        ((createStreamSession startRes responses latency now s).1.status
            = .RUNNING ∧
         ∃ arn, startRes = .ok arn ∧
           (createStreamSession startRes responses latency now s).1.lastSessionId
             = arn)) := by
  refine ⟨?_, fun _ _ => rfl, fun _ _ => rfl, ?_, fun _ _ => rfl, ?_⟩
  · intro res now s
    cases res with
    | ok signalResponse => rfl
    | err e => exact handleError_lastSessionId now e _
  · intro f v s
    cases f <;> rfl
  · intro startRes responses latency now s
    cases startRes with
    | err e => left; exact handleError_lastSessionId now e _
    | ok arn =>
      rcases pollLoop_lastSessionId responses latency arn s.sgId
          (now + 600000) 600000 0 now
          { s with isStreamStarting := true } with h | ⟨h1, h2⟩
      · left; exact h
      · right; exact ⟨h1, arn, rfl, h2⟩

/-- An error is swallowed by `handleError` exactly when it is an
`ApiError` carrying no response: the `if (e.response)` branch then falls
through without touching state. -/
def swallowedError : JsError → Bool
  | .apiError none => true
  | _ => false

theorem pollLoop_isStreamStarting (responses : Nat → PollResp)
    (latency : Nat → Nat) (arn sg : String) (deadline : Nat)
    (fuel k now : Nat) (s : ComponentState) :
    (pollLoop responses latency arn sg deadline fuel k now s).1.isStreamStarting
      = false := by
  induction fuel generalizing k now with
  | zero => rfl
  | succ fuel ih =>
    rw [pollLoop_succ]
    split
    · split
      · rfl
      · split
        · rfl
        · exact ih (k + 1) _
    · rfl

/-- C8 counterexample: a `createStreamSession` invocation whose gateway
call throws an `ApiError` without a response object terminates with
`isStreamStarting` still `true` — `handleError`'s `if (e.response)` has
no else branch, so the flag set at entry is never cleared. -/
theorem c8_counterexample :
    (createStreamSession (.err (.apiError none))
        (fun _ => .ok "ACTIVATING" "") (fun _ => 0) 0 initState).1.isStreamStarting
      = true := by
  decide

/-- C8 (amended): `createStreamSession` and
`createStreamSessionConnection` overwrite `isStreamStarting` with `true`
at entry (so the outcome is independent of its prior value), and every
terminal transition ends with `isStreamStarting = false` — except an
invocation whose gateway call fails with an `ApiError` carrying no
response, which ends with the flag still `true`. -/
theorem c8_isStreamStarting :
    (∀ startRes responses latency now s,
      (createStreamSession startRes responses latency now s).1.isStreamStarting
        = match startRes with
          | .err e => swallowedError e
          | .ok _ => false) ∧
    (∀ res now s,
      (createStreamSessionConnection res now s).1.isStreamStarting
        = match res with
          | .err e => swallowedError e
          | .ok _ => false) ∧
    (∀ startRes responses latency now (s : ComponentState) (b₁ b₂ : Bool),
      (createStreamSession startRes responses latency now
          { s with isStreamStarting := b₁ }).1
        = (createStreamSession startRes responses latency now
            { s with isStreamStarting := b₂ }).1) ∧
    (∀ res now (s : ComponentState) (b₁ b₂ : Bool),
      (createStreamSessionConnection res now
          { s with isStreamStarting := b₁ }).1
        = (createStreamSessionConnection res now
            { s with isStreamStarting := b₂ }).1) := by
  refine ⟨?_, ?_, fun _ _ _ _ _ _ _ => rfl, fun _ _ _ _ _ => rfl⟩
  · intro startRes responses latency now s
    cases startRes with
    | ok arn =>
      exact pollLoop_isStreamStarting responses latency arn s.sgId
        (now + 600000) 600000 0 now _
    | err e =>
      cases e with
      | apiError r =>
        cases r with
        | none => rfl
        | some p => cases p; rfl
      | otherError m => rfl
  · intro res now s
    cases res with
    | ok signalResponse => rfl
    | err e =>
      cases e with
      | apiError r =>
        cases r with
        | none => rfl
        | some p => cases p; rfl
      | otherError m => rfl

/-- Lower bound on the handle generations a trace may still use: closing
generation `g` raises the bound past `g`. -/
def loUpd (e : Ev) (lo : Nat) : Nat :=
  match closedHandle e with
  | some g => max lo (g + 1)
  | none => lo

/-- `noReuse lo t`: every SDK call in `t` uses a generation at least the
running bound, which starts at `lo` and rises past every closed
generation. -/
def noReuse : Nat → List (Nat × Ev) → Prop
  | _, [] => True
  | lo, p :: rest =>
    (∀ g, usedHandle p.2 = some g → lo ≤ g) ∧ noReuse (loUpd p.2 lo) rest

/-- The bound after a whole trace. -/
def loAfter (lo : Nat) (t : List (Nat × Ev)) : Nat :=
  t.foldl (fun l p => loUpd p.2 l) lo

theorem lo_le_loUpd (e : Ev) (lo : Nat) : lo ≤ loUpd e lo := by
  cases h : closedHandle e <;> simp [loUpd, h]

theorem loUpd_mono (e : Ev) {lo lo' : Nat} (h : lo' ≤ lo) :
    loUpd e lo' ≤ loUpd e lo := by
  cases hc : closedHandle e
  · simp [loUpd, hc, h]
  · simp only [loUpd, hc]
    omega

theorem loAfter_mono (t : List (Nat × Ev)) {lo lo' : Nat} (h : lo' ≤ lo) :
    loAfter lo' t ≤ loAfter lo t := by
  induction t generalizing lo lo' with
  | nil => exact h
  | cons p rest ih => exact ih (loUpd_mono p.2 h)

theorem lo_le_loAfter (lo : Nat) (t : List (Nat × Ev)) :
    lo ≤ loAfter lo t := by
  induction t generalizing lo with
  | nil => exact Nat.le_refl lo
  | cons p rest ih =>
    exact Nat.le_trans (lo_le_loUpd p.2 lo) (ih (loUpd p.2 lo))

theorem loAfter_append (lo : Nat) (t₁ t₂ : List (Nat × Ev)) :
    loAfter lo (t₁ ++ t₂) = loAfter (loAfter lo t₁) t₂ := by
  simp [loAfter, List.foldl_append]

theorem noReuse_mono {t : List (Nat × Ev)} {lo lo' : Nat} (h : lo' ≤ lo) :
    noReuse lo t → noReuse lo' t := by
  induction t generalizing lo lo' with
  | nil => intro; trivial
  | cons p rest ih =>
    intro ⟨h1, h2⟩
    exact ⟨fun g hg => Nat.le_trans h (h1 g hg), ih (loUpd_mono p.2 h) h2⟩

theorem noReuse_append {t₁ t₂ : List (Nat × Ev)} {lo : Nat}
    (h₁ : noReuse lo t₁) (h₂ : noReuse (loAfter lo t₁) t₂) :
    noReuse lo (t₁ ++ t₂) := by
  induction t₁ generalizing lo with
  | nil => exact h₂
  | cons p rest ih => exact ⟨h₁.1, ih h₁.2 h₂⟩

/-- A trace whose SDK calls all target handle `h` and which closes
nothing. -/
def engineOnlyAt (h : Nat) (t : List (Nat × Ev)) : Prop :=
  ∀ p ∈ t, (∀ g, usedHandle p.2 = some g → g = h) ∧ closedHandle p.2 = none

theorem engineOnlyAt_noReuse {h lo : Nat} {t : List (Nat × Ev)}
    (ht : engineOnlyAt h t) (hlo : lo ≤ h) :
    noReuse lo t ∧ loAfter lo t = lo := by
  induction t generalizing lo with
  | nil => exact ⟨trivial, rfl⟩
  | cons p rest ih =>
    have hp := ht p (List.mem_cons_self p rest)
    have hrest : engineOnlyAt h rest :=
      fun q hq => ht q (List.mem_cons_of_mem p hq)
    have hupd : loUpd p.2 lo = lo := by simp [loUpd, hp.2]
    have := ih hrest hlo
    refine ⟨⟨fun g hg => ?_, ?_⟩, ?_⟩
    · rw [hp.1 g hg]; exact hlo
    · rw [hupd]; exact this.1
    · show loAfter (loUpd p.2 lo) rest = lo
      rw [hupd]; exact this.2

theorem handleError_engineOnly (now : Nat) (e : JsError)
    (s : ComponentState) (h : Nat) :
    engineOnlyAt h (handleError now e s).2 := by
  cases e with
  | apiError r =>
    cases r with
    | none => intro p hp; cases hp
    | some q =>
      cases q
      intro p hp
      rcases List.mem_singleton.mp hp with rfl
      exact ⟨(fun g hg => nomatch hg), rfl⟩
  | otherError m =>
    intro p hp
    rcases List.mem_singleton.mp hp with rfl
    exact ⟨(fun g hg => nomatch hg), rfl⟩

theorem handleError_handleGen (now : Nat) (e : JsError)
    (s : ComponentState) :
    (handleError now e s).1.handleGen = s.handleGen := by
  cases e with
  | apiError r =>
    cases r with
    | none => rfl
    | some p => cases p; rfl
  | otherError m => rfl

theorem pollLoop_engineOnly (responses : Nat → PollResp)
    (latency : Nat → Nat) (arn sg : String) (deadline : Nat)
    (fuel k now : Nat) (s : ComponentState) :
    engineOnlyAt s.handleGen
      (pollLoop responses latency arn sg deadline fuel k now s).2 := by
  induction fuel generalizing k now with
  | zero =>
    intro p hp
    rcases List.mem_singleton.mp hp with rfl
    exact ⟨(fun g hg => nomatch hg), rfl⟩
  | succ fuel ih =>
    rw [pollLoop_succ]
    split
    · split
      · intro p hp
        rcases List.mem_cons.mp hp with rfl | hp'
        · exact ⟨(fun g hg => nomatch hg), rfl⟩
        · exact handleError_engineOnly _ _ s s.handleGen p hp'
      · split
        · intro p hp
          rcases List.mem_cons.mp hp with rfl | hp'
          · exact ⟨(fun g hg => nomatch hg), rfl⟩
          · rcases List.mem_cons.mp hp' with rfl | hp''
            · exact ⟨fun g hg => (by cases hg; rfl), rfl⟩
            · rcases List.mem_singleton.mp hp'' with rfl
              exact ⟨fun g hg => (by cases hg; rfl), rfl⟩
        · intro p hp
          rcases List.mem_cons.mp hp with rfl | hp'
          · exact ⟨(fun g hg => nomatch hg), rfl⟩
          · rcases List.mem_cons.mp hp' with rfl | hp''
            · exact ⟨(fun g hg => nomatch hg), rfl⟩
            · exact ih (k + 1) _ p hp''
    · intro p hp
      rcases List.mem_singleton.mp hp with rfl
      exact ⟨(fun g hg => nomatch hg), rfl⟩

theorem pollLoop_handleGen (responses : Nat → PollResp)
    (latency : Nat → Nat) (arn sg : String) (deadline : Nat)
    (fuel k now : Nat) (s : ComponentState) :
    (pollLoop responses latency arn sg deadline fuel k now s).1.handleGen
      = s.handleGen := by
  induction fuel generalizing k now with
  | zero => rfl
  | succ fuel ih =>
    rw [pollLoop_succ]
    split
    · split
      · exact handleError_handleGen _ _ s
      · split
        · rfl
        · exact ih (k + 1) _
    · rfl

theorem runCmd_noReuse (now : Nat) (s : ComponentState) (c : Cmd) :
    noReuse s.handleGen (runCmd now s c).2 ∧
    loAfter s.handleGen (runCmd now s c).2 ≤ (runCmd now s c).1.handleGen := by
  cases c with
  | create startRes responses latency =>
    have hgen : (runCmd now s (.create startRes responses latency)).1.handleGen
        = s.handleGen := by
      show (createStreamSession startRes responses latency now s).1.handleGen
        = s.handleGen
      cases startRes with
      | err e => exact handleError_handleGen now e _
      | ok arn =>
        exact pollLoop_handleGen responses latency arn s.sgId (now + 600000)
          600000 0 now { s with isStreamStarting := true }
    have heng : engineOnlyAt s.handleGen
        (runCmd now s (.create startRes responses latency)).2 := by
      show engineOnlyAt s.handleGen
        (createStreamSession startRes responses latency now s).2
      cases startRes with
      | err e =>
        intro p hp
        rcases List.mem_cons.mp hp with rfl | hp'
        · exact ⟨fun g hg => (by cases hg; rfl), rfl⟩
        · rcases List.mem_cons.mp hp' with rfl | hp''
          · exact ⟨(fun g hg => nomatch hg), rfl⟩
          · exact handleError_engineOnly now e _ s.handleGen p hp''
      | ok arn =>
        intro p hp
        rcases List.mem_cons.mp hp with rfl | hp'
        · exact ⟨fun g hg => (by cases hg; rfl), rfl⟩
        · rcases List.mem_cons.mp hp' with rfl | hp''
          · exact ⟨(fun g hg => nomatch hg), rfl⟩
          · exact pollLoop_engineOnly responses latency arn s.sgId (now + 600000)
              600000 0 now { s with isStreamStarting := true } p hp''
    have h := engineOnlyAt_noReuse heng (Nat.le_refl s.handleGen)
    exact ⟨h.1, by rw [h.2, hgen]⟩
  | reconnect res =>
    have heng : engineOnlyAt s.handleGen (runCmd now s (.reconnect res)).2 := by
      show engineOnlyAt s.handleGen (createStreamSessionConnection res now s).2
      cases res with
      | err e =>
        intro p hp
        rcases List.mem_cons.mp hp with rfl | hp'
        · exact ⟨fun g hg => (by cases hg; rfl), rfl⟩
        · rcases List.mem_cons.mp hp' with rfl | hp''
          · exact ⟨(fun g hg => nomatch hg), rfl⟩
          · exact handleError_engineOnly now e _ s.handleGen p hp''
      | ok signalResponse =>
        intro p hp
        rcases List.mem_cons.mp hp with rfl | hp'
        · exact ⟨fun g hg => (by cases hg; rfl), rfl⟩
        · rcases List.mem_cons.mp hp' with rfl | hp''
          · exact ⟨(fun g hg => nomatch hg), rfl⟩
          · rcases List.mem_cons.mp hp'' with rfl | hp3
            · exact ⟨fun g hg => (by cases hg; rfl), rfl⟩
            · rcases List.mem_singleton.mp hp3 with rfl
              exact ⟨fun g hg => (by cases hg; rfl), rfl⟩
    have hgen : (runCmd now s (.reconnect res)).1.handleGen = s.handleGen := by
      show (createStreamSessionConnection res now s).1.handleGen = s.handleGen
      cases res with
      | err e => exact handleError_handleGen now e _
      | ok signalResponse => rfl
    have h := engineOnlyAt_noReuse heng (Nat.le_refl s.handleGen)
    exact ⟨h.1, by rw [h.2, hgen]⟩
  | close =>
    refine ⟨⟨(fun g hg => nomatch hg), (fun g hg => nomatch hg), trivial⟩, ?_⟩
    show loAfter s.handleGen
      [(now, .closeHandle s.handleGen), (now, .newHandle (s.handleGen + 1))]
        ≤ s.handleGen + 1
    simp [loAfter, loUpd, closedHandle]
  | fullscreen =>
    refine ⟨⟨fun g hg => ?_, trivial⟩, Nat.le_refl _⟩
    cases hg; exact Nat.le_refl _
  | input f v => cases f <;> exact ⟨trivial, Nat.le_refl _⟩
  | region r => exact ⟨trivial, Nat.le_refl _⟩

theorem run_noReuse (cmds : List (Nat × Cmd)) (s : ComponentState) :
    noReuse s.handleGen (run cmds s).2 ∧
    loAfter s.handleGen (run cmds s).2 ≤ (run cmds s).1.handleGen := by
  induction cmds generalizing s with
  | nil => exact ⟨trivial, Nat.le_refl _⟩
  | cons tc rest ih =>
    obtain ⟨t, c⟩ := tc
    have h1 := runCmd_noReuse t s c
    have h2 := ih (runCmd t s c).1
    constructor
    · show noReuse s.handleGen ((runCmd t s c).2 ++ (run rest (runCmd t s c).1).2)
      exact noReuse_append h1.1 (noReuse_mono h1.2 h2.1)
    · show loAfter s.handleGen ((runCmd t s c).2 ++ (run rest (runCmd t s c).1).2)
        ≤ (run rest (runCmd t s c).1).1.handleGen
      rw [loAfter_append]
      exact Nat.le_trans (loAfter_mono _ h1.2) h2.2

theorem noReuse_uses_ge {lo : Nat} {t : List (Nat × Ev)}
    (h : noReuse lo t) :
    ∀ q ∈ t, ∀ g, usedHandle q.2 = some g → lo ≤ g := by
  induction t generalizing lo with
  | nil => intro q hq; cases hq
  | cons p rest ih =>
    intro q hq g hg
    rcases List.mem_cons.mp hq with rfl | hq'
    · exact h.1 g hg
    · exact Nat.le_trans (lo_le_loUpd p.2 lo) (ih h.2 q hq' g hg)

theorem noReuse_no_use_after_close {lo g : Nat} {t t₁ t₂ : List (Nat × Ev)}
    {p : Nat × Ev} (h : noReuse lo t) (hsplit : t = t₁ ++ p :: t₂)
    (hclose : closedHandle p.2 = some g) :
    ∀ q ∈ t₂, usedHandle q.2 ≠ some g := by
  induction t₁ generalizing t lo with
  | nil =>
    subst hsplit
    intro q hq hg
    have hupd : loUpd p.2 lo = max lo (g + 1) := by simp [loUpd, hclose]
    have := noReuse_uses_ge h.2 q hq g hg
    rw [hupd] at this
    omega
  | cons r t₁' ih =>
    subst hsplit
    exact ih h.2 rfl

/-- C9: `closeConnection` transitions to `STOPPED`, clears
`inputEnabled`, closes the current transport-engine handle exactly once
and immediately constructs the replacement generation; and across any
sequence of component operations, once a handle generation has been
closed no later SDK call (signal generation, answer application, input
attach) ever targets it again — the model's single `handleGen` field is
the one live handle. -/
theorem c9_close_replaces_handle :
    (∀ now s, (closeConnection now s).1.status = .STOPPED ∧
      (closeConnection now s).1.inputEnabled = false ∧
      countEv (fun e => (closedHandle e).isSome) (closeConnection now s).2 = 1 ∧
      (closeConnection now s).2 =
        [(now, .closeHandle s.handleGen), (now, .newHandle (s.handleGen + 1))] ∧
      (closeConnection now s).1.handleGen = s.handleGen + 1) ∧
    (∀ cmds s (t₁ : List (Nat × Ev)) (p : Nat × Ev) g t₂,
      (run cmds s).2 = t₁ ++ p :: t₂ →
      closedHandle p.2 = some g →
      ∀ q ∈ t₂, usedHandle q.2 ≠ some g) := by
  refine ⟨fun now s => ⟨rfl, rfl, rfl, rfl, rfl⟩, ?_⟩
  intro cmds s t₁ p g t₂ hsplit hclose
  exact noReuse_no_use_after_close (run_noReuse cmds s).1 hsplit hclose

/-- C9 witness: close the initial handle (generation 0), then attach
input via the fullscreen control — the attach targets the replacement
generation, not the closed one. -/
theorem c9_witness :
    usedHandle (Ev.attachInput 1) ≠ some 0 :=
  c9_close_replaces_handle.2 [(0, .close), (5, .fullscreen)] initState
    [] (0, .closeHandle 0) 0 [(0, .newHandle 1), (5, .attachInput 1)]
    (by decide) (by decide) (5, .attachInput 1) (by decide)

/-- C6: on a sample with no recorded baseline (`previousBytesReceived`
falsy) the processor only records the byte/timestamp baseline and reports
no bitrate; on a sample with a recorded baseline and a truthy byte count
it reports `(Δbytes * 8) / Δt_seconds / 1e6` formatted to two decimals;
for baseline `bytesReceived = 1000000` at `t = 0` and
`bytesReceived = 2000000` at `t = 1000 ms` the reported bitrate is
`"8.00"`. -/
theorem c6_bitrate_baseline_then_rate :
    (∀ (now : ℚ) (st : StatsState) (r : RTCReport),
      st.previousBytesReceived = 0 → r.type = "inbound-rtp" →
      r.framesPerSecond.isSome = true →
      (processStats now [r] st).networkStats.bitrate = st.networkStats.bitrate ∧
      (processStats now [r] st).previousBytesReceived = r.bytesReceived.getD 0 ∧
      (processStats now [r] st).previousTimestamp = now) ∧
    (∀ (now : ℚ) (st : StatsState) (r : RTCReport),
      st.previousBytesReceived ≠ 0 → r.type = "inbound-rtp" →
      r.framesPerSecond.isSome = true → r.bytesReceived.getD 0 ≠ 0 →
      (processStats now [r] st).networkStats.bitrate =
        some (toFixed2 ((r.bytesReceived.getD 0 - st.previousBytesReceived) * 8
          / ((now - st.previousTimestamp) / 1000) / 1000000))) ∧
    (processStats 1000 [mediaReport (some 60) none (some 2000000)]
        (processStats 0 [mediaReport (some 60) none (some 1000000)] initStats)).networkStats.bitrate
      = some "8.00" := by
  have hA : ∀ (now : ℚ) (st : StatsState) (r : RTCReport),
      st.previousBytesReceived = 0 → r.type = "inbound-rtp" →
      r.framesPerSecond.isSome = true →
      (processStats now [r] st).networkStats.bitrate = st.networkStats.bitrate ∧
      (processStats now [r] st).previousBytesReceived = r.bytesReceived.getD 0 ∧
      (processStats now [r] st).previousTimestamp = now := by
    intro now st r hprev ht hfs
    simp only [processStats, List.foldl]
    unfold procReport
    simp [ht, hfs, hprev]
  have hB : ∀ (now : ℚ) (st : StatsState) (r : RTCReport),
      st.previousBytesReceived ≠ 0 → r.type = "inbound-rtp" →
      r.framesPerSecond.isSome = true → r.bytesReceived.getD 0 ≠ 0 →
      (processStats now [r] st).networkStats.bitrate =
        some (toFixed2 ((r.bytesReceived.getD 0 - st.previousBytesReceived) * 8
          / ((now - st.previousTimestamp) / 1000) / 1000000)) := by
    intro now st r hprev ht hfs hbytes
    simp only [processStats, List.foldl]
    unfold procReport
    simp [ht, hfs, hprev, hbytes]
  refine ⟨hA, hB, ?_⟩
  have h1 : processStats 0 [mediaReport (some 60) none (some 1000000)] initStats =
      { networkStats := { rtt := none, jitter := none, bitrate := none },
        frameRate := some 60, previousBytesReceived := 1000000,
        previousTimestamp := 0 } := by
    simp only [processStats, List.foldl, mediaReport, initStats]
    unfold procReport
    norm_num [jsRound]
  rw [h1]
  have h2 := hB 1000
    { networkStats := { rtt := none, jitter := none, bitrate := none },
      frameRate := some 60, previousBytesReceived := 1000000,
      previousTimestamp := 0 }
    (mediaReport (some 60) none (some 2000000))
    (by norm_num) rfl rfl (by norm_num [mediaReport])
  rw [h2]
  have htf : toFixed2 8 = "8.00" := by
    simp only [toFixed2]
    norm_num
    decide
  norm_num [mediaReport, htf]

/-- C6 witness: the baseline-only first sample, instantiated. -/
theorem c6_witness :
    (processStats 0 [mediaReport (some 60) none (some 1000000)] initStats).networkStats.bitrate
      = initStats.networkStats.bitrate ∧
    (processStats 0 [mediaReport (some 60) none (some 1000000)] initStats).previousBytesReceived
      = (mediaReport (some 60) none (some 1000000)).bytesReceived.getD 0 :=
  ⟨(c6_bitrate_baseline_then_rate.1 0 initStats
      (mediaReport (some 60) none (some 1000000)) rfl rfl rfl).1,
   (c6_bitrate_baseline_then_rate.1 0 initStats
      (mediaReport (some 60) none (some 1000000)) rfl rfl rfl).2.1⟩

/-- C7: in an inbound media report (with a frame-rate field), a non-zero
jitter in seconds is converted to milliseconds and rounded to the nearest
integer, and the frame rate is rounded to the nearest integer; in a
succeeded candidate-pair report a non-zero round-trip time is converted
seconds to milliseconds and rounded; jitter `0.015 s` displays as `15`
and round-trip time `0.042 s` as `42`. -/
theorem c7_seconds_to_ms_rounded :
    (∀ (now : ℚ) (st : StatsState) (r : RTCReport) (f j : ℚ),
      r.type = "inbound-rtp" → r.framesPerSecond = some f →
      r.jitter = some j → j ≠ 0 →
      (processStats now [r] st).networkStats.jitter = some (jsRound (j * 1000)) ∧
      (processStats now [r] st).frameRate = some (jsRound f)) ∧
    (∀ (now : ℚ) (st : StatsState) (r : RTCReport) (x : ℚ),
      r.type = "candidate-pair" → r.state = some "succeeded" →
      r.currentRoundTripTime = some x → x ≠ 0 →
      (processStats now [r] st).networkStats.rtt = some (jsRound (x * 1000))) ∧
    jsRound ((0.015 : ℚ) * 1000) = 15 ∧
    jsRound ((0.042 : ℚ) * 1000) = 42 ∧
    renderStat (processStats 0 [mediaReport (some 60) (some 0.015) none]
      initStats).networkStats.jitter = "15" ∧
    renderStat (processStats 0 [pairReport (some 0.042)]
      initStats).networkStats.rtt = "42" := by
  have hM : ∀ (now : ℚ) (st : StatsState) (r : RTCReport) (f j : ℚ),
      r.type = "inbound-rtp" → r.framesPerSecond = some f →
      r.jitter = some j → j ≠ 0 →
      (processStats now [r] st).networkStats.jitter = some (jsRound (j * 1000)) ∧
      (processStats now [r] st).frameRate = some (jsRound f) := by
    intro now st r f j ht hf hj hjz
    simp only [processStats, List.foldl]
    unfold procReport
    simp only [ht, hf, hj, Option.getD_some, Option.isSome_some, ne_eq, hjz,
      not_false_eq_true, if_true, and_true, and_false, if_false]
    refine ⟨?_, ?_⟩ <;> (repeat' split) <;> rfl
  have hP : ∀ (now : ℚ) (st : StatsState) (r : RTCReport) (x : ℚ),
      r.type = "candidate-pair" → r.state = some "succeeded" →
      r.currentRoundTripTime = some x → x ≠ 0 →
      (processStats now [r] st).networkStats.rtt = some (jsRound (x * 1000)) := by
    intro now st r x ht hs hx hxz
    simp only [processStats, List.foldl]
    unfold procReport
    simp only [ht, hs, hx, Option.getD_some, ne_eq, hxz, not_false_eq_true,
      if_true, and_true, and_false, if_false]
  have hj15 : jsRound ((0.015 : ℚ) * 1000) = 15 := by norm_num [jsRound]
  have hj42 : jsRound ((0.042 : ℚ) * 1000) = 42 := by norm_num [jsRound]
  refine ⟨hM, hP, hj15, hj42, ?_, ?_⟩
  · have h := hM 0 initStats (mediaReport (some 60) (some 0.015) none)
      60 0.015 rfl rfl rfl (by norm_num)
    rw [h.1, hj15]
    decide
  · have h := hP 0 initStats (pairReport (some 0.042)) 0.042 rfl rfl rfl
      (by norm_num)
    rw [h, hj42]
    decide

/-- C7 witness: a processed media report with jitter 0.015 s. -/
theorem c7_witness :
    (processStats 0 [mediaReport (some 30) (some 0.015) none]
      initStats).networkStats.jitter = some (jsRound ((0.015 : ℚ) * 1000)) :=
  (c7_seconds_to_ms_rounded.1 0 initStats
    (mediaReport (some 30) (some 0.015) none) 30 0.015 rfl rfl rfl
    (by norm_num)).1

/-- C10: a jitter of exactly 0 (or an absent jitter) in a processed
inbound media report yields no stored jitter metric, rendered as the
placeholder, and likewise a zero round-trip time in a succeeded
candidate-pair report; a frame rate of exactly 0 is stored as 0 and also
renders as the placeholder; the seconds-to-milliseconds conversion is
applied exactly to the strictly non-zero raw values. -/
theorem c10_zero_renders_placeholder :
    (∀ (now : ℚ) (st : StatsState) (r : RTCReport) (f : ℚ),
      r.type = "inbound-rtp" → r.framesPerSecond = some f →
      ((r.jitter = some 0 ∨ r.jitter = none) ↔
        (processStats now [r] st).networkStats.jitter = none)) ∧
    (∀ (now : ℚ) (st : StatsState) (r : RTCReport),
      r.type = "candidate-pair" → r.state = some "succeeded" →
      ((r.currentRoundTripTime = some 0 ∨ r.currentRoundTripTime = none) ↔
        (processStats now [r] st).networkStats.rtt = none)) ∧
    (∀ (now : ℚ) (st : StatsState) (r : RTCReport),
      r.type = "inbound-rtp" → r.framesPerSecond = some 0 →
      (processStats now [r] st).frameRate = some 0 ∧
      renderStat (processStats now [r] st).frameRate = "-") ∧
    renderStat (processStats 0 [mediaReport (some 60) (some 0) none]
      initStats).networkStats.jitter = "-" ∧
    renderStat (processStats 0 [pairReport (some 0)]
      initStats).networkStats.rtt = "-" := by
  have hJ : ∀ (now : ℚ) (st : StatsState) (r : RTCReport) (f : ℚ),
      r.type = "inbound-rtp" → r.framesPerSecond = some f →
      ((r.jitter = some 0 ∨ r.jitter = none) ↔
        (processStats now [r] st).networkStats.jitter = none) := by
    intro now st r f ht hf
    simp only [processStats, List.foldl]
    unfold procReport
    rcases hj : r.jitter with _ | j
    · simp [ht, hf, hj]
      all_goals ((repeat' split) <;> simp)
    · by_cases hz : j = 0
      · subst hz
        simp [ht, hf, hj]
        all_goals ((repeat' split) <;> simp)
      · simp [ht, hf, hj, hz]
        all_goals ((repeat' split) <;> simp)
  have hR : ∀ (now : ℚ) (st : StatsState) (r : RTCReport),
      r.type = "candidate-pair" → r.state = some "succeeded" →
      ((r.currentRoundTripTime = some 0 ∨ r.currentRoundTripTime = none) ↔
        (processStats now [r] st).networkStats.rtt = none) := by
    intro now st r ht hs
    simp only [processStats, List.foldl]
    unfold procReport
    rcases hx : r.currentRoundTripTime with _ | x
    · simp [ht, hs, hx]
    · by_cases hz : x = 0
      · subst hz
        simp [ht, hs, hx]
      · simp [ht, hs, hx, hz]
  have hF : ∀ (now : ℚ) (st : StatsState) (r : RTCReport),
      r.type = "inbound-rtp" → r.framesPerSecond = some 0 →
      (processStats now [r] st).frameRate = some 0 ∧
      renderStat (processStats now [r] st).frameRate = "-" := by
    intro now st r ht hf
    have hjr : jsRound (0 : ℚ) = 0 := by norm_num [jsRound]
    simp only [processStats, List.foldl]
    unfold procReport
    simp only [ht, hf, Option.isSome_some, and_true, if_true,
      Option.getD_some, hjr]
    all_goals ((repeat' split) <;> simp [renderStat])
  refine ⟨hJ, hR, hF, ?_, ?_⟩
  · have h := (hJ 0 initStats (mediaReport (some 60) (some 0) none) 60
      rfl rfl).mp (Or.inl rfl)
    rw [h]
    rfl
  · have h := (hR 0 initStats (pairReport (some 0)) rfl rfl).mp (Or.inl rfl)
    rw [h]
    rfl

/-- C10 witness: processing a media report whose jitter is exactly 0
stores no jitter metric. -/
theorem c10_witness :
    (processStats 0 [mediaReport (some 24) (some 0) none]
      initStats).networkStats.jitter = none :=
  (c10_zero_renders_placeholder.1 0 initStats
    (mediaReport (some 24) (some 0) none) 24 rfl rfl).mp (Or.inl rfl)

/-- C1 witness: instantiating the amended theorem at a session ARN in the
service's real shape derives the stream-group segment. -/
theorem c1_witness :
    reconnectHandlerIdentifier
        ("arn:aws:gameliftstreams:us-west-2:111122223333:streamsession" ++ "/" ++
          "sg-abc" ++ "/" ++ "ABC123")
      = some "sg-abc" :=
  c1_reconnect_identifier.1
    "arn:aws:gameliftstreams:us-west-2:111122223333:streamsession"
    "sg-abc" "ABC123" (by decide) (by decide)

end GLS
